import Mathlib

/-!
Verification of the ParcelX auth/logistics server (`src/index.js`, with
`src/server.js` containing identical route handlers for the parcel-status and
assignment routes).

The Express + MongoDB handlers are shallowly embedded as pure Lean functions
over an explicit database state `DB` holding the four collections the claims
touch (`users`, `parcels`, `riders`, `tracking`).  MongoDB's `updateOne`
becomes "update the first matching element of a list"; `findOne` becomes
`List.find?`; JS `undefined`-able fields become `Option`; JS numbers used by
the earnings arithmetic become `ℚ`; `Date` values become an abstract `Nat`
clock passed in by the caller.  The Stripe payment adapter is a function
parameter `retrieve : String → Option PaymentIntent`.
-/

set_option autoImplicit false

namespace ParcelX

/-- A MongoDB document `_id`: either a real ObjectId (kept as its 24-hex-char
string form, as produced by `new ObjectId(s)`) or a literal string id (the
`/payments/confirm` route also matches `{ _id: parcelId }` with the raw
string). -/
inductive BsonId where
  | oid (hex : String)
  | str (s : String)
deriving DecidableEq, Repr

/-- `ObjectId.isValid` from the mongodb driver, on strings: a 12-character
string, or a 24-character hex string. -/
def objectIdIsValid (s : String) : Bool :=
  s.length == 12 || (s.length == 24 && s.toList.all (fun c => c.isDigit || ('a' ≤ c && c ≤ 'f') || ('A' ≤ c && c ≤ 'F')))

/-- JS `String.prototype.toLowerCase` (characterwise, as used on the ASCII
role/status/district strings of this server). -/
def jsToLower (s : String) : String :=
  ⟨s.toList.map Char.toLower⟩

/-- JS `String.prototype.trim`. -/
def jsTrim (s : String) : String :=
  ⟨((s.toList.dropWhile Char.isWhitespace).reverse.dropWhile Char.isWhitespace).reverse⟩

/-- A document of the `users` collection. -/
structure User where
  _id : BsonId
  uid : Option String
  email : String
  name : String
  image : String
  provider : String
  role : Option String
  createdAt : Option Nat
  lastLogin : Option Nat
deriving DecidableEq, Repr

/-- A document of the `parcels` collection (the fields the claimed routes
read or write). -/
structure Parcel where
  _id : BsonId
  trackingId : Option String
  createdByEmail : Option String
  paymentStatus : Option String
  status : Option String
  assignedRiderId : Option String
  assignedRiderName : Option String
  assignedRiderEmail : Option String
  assignedAt : Option Nat
  riderDistrict : Option String
  receiverDistrict : Option String
  deliveryCost : Option ℚ
  riderEarning : Option ℚ
  createdAt : Option Nat
  updatedAt : Option Nat
deriving DecidableEq, Repr

/-- A document of the `riders` collection. -/
structure Rider where
  _id : BsonId
  email : Option String
  district : Option String
  status : Option String
  workStatus : Option String
  lastAssignedParcel : Option String
  lastAssignedAt : Option Nat
deriving DecidableEq, Repr

/-- A document of the `tracking` collection. -/
structure TrackingEvent where
  parcel_id : BsonId
  tracking_id : Option String
  time : Nat
deriving DecidableEq, Repr

/-- The database state: the four collections the claimed routes touch. -/
structure DB where
  users : List User
  parcels : List Parcel
  riders : List Rider
  tracking : List TrackingEvent
deriving DecidableEq, Repr

/-- `updateOne` document mutation: apply `f` to the first element satisfying
`p`, leave the rest unchanged. -/
def updateFirst {α : Type} (p : α → Bool) (f : α → α) : List α → List α
  | [] => []
  | x :: xs => if p x then f x :: xs else x :: updateFirst p f xs

/-- `matchedCount` of an `updateOne` against a list. -/
def matchedCount {α : Type} (p : α → Bool) (l : List α) : Nat :=
  if l.any p then 1 else 0

/-- `modifiedCount` of an `updateOne`: 1 when a document matched and the
update actually changed it. -/
def modifiedCount {α : Type} [DecidableEq α] (p : α → Bool) (f : α → α) (l : List α) : Nat :=
  match l.find? p with
  | none => 0
  | some x => if f x = x then 0 else 1

theorem length_updateFirst {α : Type} (p : α → Bool) (f : α → α) (l : List α) :
    (updateFirst p f l).length = l.length := by
  induction l with
  | nil => rfl
  | cons x xs ih =>
    by_cases hx : p x
    · simp [updateFirst, hx]
    · simp [updateFirst, hx, ih]

theorem updateFirst_of_forall_not {α : Type} (p : α → Bool) (f : α → α) (l : List α)
    (h : ∀ x ∈ l, p x = false) : updateFirst p f l = l := by
  induction l with
  | nil => rfl
  | cons x xs ih =>
    simp only [updateFirst, h x (List.mem_cons_self x xs)]
    simp only [List.mem_cons] at h
    simp only [Bool.false_eq_true, if_false]
    rw [ih fun y hy => h y (Or.inr hy)]

theorem mem_updateFirst_of_find? {α : Type} (p : α → Bool) (f : α → α) (l : List α) (x : α)
    (h : l.find? p = some x) : f x ∈ updateFirst p f l := by
  induction l with
  | nil => simp at h
  | cons y ys ih =>
    by_cases hy : p y
    · rw [List.find?_cons_of_pos _ hy] at h
      injection h with h
      subst h
      simp [updateFirst, hy]
    · rw [List.find?_cons_of_neg _ hy] at h
      simp only [updateFirst, hy, if_neg, Bool.false_eq_true, if_false, List.mem_cons]
      exact Or.inr (ih h)

theorem updateFirst_updateFirst {α : Type} (p : α → Bool) (f g : α → α) (l : List α)
    (hf : ∀ x, p (f x) = p x) :
    updateFirst p g (updateFirst p f l) = updateFirst p (fun x => g (f x)) l := by
  induction l with
  | nil => rfl
  | cons x xs ih =>
    by_cases hx : p x
    · simp [updateFirst, hx, hf]
    · simp [updateFirst, hx, ih]

theorem map_updateFirst {α β : Type} (p : α → Bool) (f : α → α) (g : α → β) (l : List α)
    (hg : ∀ x, g (f x) = g x) : (updateFirst p f l).map g = l.map g := by
  induction l with
  | nil => rfl
  | cons x xs ih =>
    by_cases hx : p x
    · simp [updateFirst, hx, hg]
    · simp [updateFirst, hx, ih]

/-! ## POST /users — login upsert -/

/-- JS `role || "user"` on the (possibly absent) request role. -/
def roleOrUser (role : Option String) : String :=
  match role with
  | some r => if r = "" then "user" else r
  | none => "user"

/-- Response of `POST /users`. -/
structure UsersPostResp where
  status : Nat
  success : Bool
  message : String
deriving DecidableEq, Repr

/-- `app.post("/users")`: upsert on `{ email }` with
`$setOnInsert` = the identity fields plus `role: role || "user"` and
`createdAt: now`, and `$set: { lastLogin: now }`.  A fresh `_id` for the
insert case is supplied by the caller (MongoDB generates it). -/
def postUsers (db : DB) (uid : Option String) (email : String) (name image : String)
    (role : Option String) (provider : String) (now : Nat) (freshId : BsonId) :
    UsersPostResp × DB :=
  if email = "" then
    (⟨400, false, "Email is required"⟩, db)
  else
    match db.users.find? (fun u => u.email == email) with
    | some _ =>
      let users' := updateFirst (fun u => u.email == email)
        (fun u => { u with lastLogin := some now }) db.users
      (⟨200, true, "User exists — lastLogin refreshed"⟩, { db with users := users' })
    | none =>
      let newUser : User :=
        { _id := freshId, uid := uid, email := email, name := name, image := image,
          provider := provider, role := some (roleOrUser role),
          createdAt := some now, lastLogin := some now }
      (⟨201, true, "User created"⟩, { db with users := db.users ++ [newUser] })

/-! ## PATCH /users/:id/role — role update (behind verifyToken) -/

/-- Response of `PATCH /users/:id/role`. -/
structure RoleResp where
  status : Nat
  success : Bool
  message : String
deriving DecidableEq, Repr

def allowedRoles : List String := ["user", "admin", "rider"]

/-- `app.patch("/users/:id/role")` (the handler body after the auth
middleware): validates the id, requires a truthy role, checks the lowercased
role against the allow-list, then stores `role.toLowerCase()` on the matched
user. -/
def patchUserRole (db : DB) (id : String) (role : Option String) : RoleResp × DB :=
  if !(objectIdIsValid id) then
    (⟨400, false, "Invalid user ID."⟩, db)
  else
    match role with
    | none => (⟨400, false, "Role is required."⟩, db)
    | some r =>
      if r = "" then (⟨400, false, "Role is required."⟩, db)
      else if !(allowedRoles.contains (jsToLower r)) then
        (⟨400, false, "Invalid role. Allowed: user, admin, rider"⟩, db)
      else if db.users.any (fun u => u._id == BsonId.oid id) then
        let users' := updateFirst (fun u => u._id == BsonId.oid id)
          (fun u => { u with role := some (jsToLower r) }) db.users
        (⟨200, true, "User role updated to " ++ r ++ "."⟩, { db with users := users' })
      else
        (⟨404, false, "User not found."⟩, db)

/-! ## POST /payments/confirm -/

/-- A Stripe payment intent as seen by the confirm route (only its `status`
is read). -/
structure PaymentIntent where
  status : String
deriving DecidableEq, Repr

/-- Response of `POST /payments/confirm`. -/
structure ConfirmResp where
  status : Nat
  success : Bool
  message : String
deriving DecidableEq, Repr

/-- `app.post("/payments/confirm")`: requires truthy `parcelId` and
`paymentIntentId`; retrieves the intent from the payment adapter and rejects
unless its status is "succeeded"; then updates the first parcel matched by
`$or` of `{ _id: new ObjectId(parcelId) }` (when valid) and
`{ _id: parcelId }`, without checking the match count. -/
def paymentsConfirm (retrieve : String → Option PaymentIntent) (db : DB)
    (parcelId paymentIntentId : Option String) (now : Nat) : ConfirmResp × DB :=
  if parcelId.getD "" = "" || paymentIntentId.getD "" = "" then
    (⟨400, false, "parcelId and paymentIntentId are required"⟩, db)
  else
    match retrieve (paymentIntentId.getD "") with
    | none => (⟨400, false, "PaymentIntent not succeeded"⟩, db)
    | some pi =>
      if pi.status ≠ "succeeded" then
        (⟨400, false, "PaymentIntent not succeeded"⟩, db)
      else
        let pid := parcelId.getD ""
        let ids : List BsonId :=
          (if objectIdIsValid pid then [BsonId.oid pid] else []) ++ [BsonId.str pid]
        let parcels' := updateFirst (fun p => ids.contains p._id)
          (fun p => { p with paymentStatus := some "Paid", updatedAt := some now }) db.parcels
        (⟨200, true, "Payment recorded and parcel marked Paid"⟩, { db with parcels := parcels' })

/-! ## PATCH /riders/:id — rider status + linked user role -/

/-- Response of `PATCH /riders/:id`. -/
structure RiderPatchResp where
  status : Nat
  success : Bool
  message : String
deriving DecidableEq, Repr

/-- `app.patch("/riders/:id")`: validates the id, requires truthy email and
status, lowercases the status, updates the rider (404 when no rider
matched), then updates the linked user's role — to "rider" on "active", to
"user" on "pending"/"rejected"; for any other status the handler calls
`updateOne` with an empty update document, which the MongoDB driver rejects
("Update document requires atomic operators"), landing in the catch block
(500) after the rider update has already been persisted.  A missing user is
only logged; the operation still succeeds. -/
def ridersPatch (db : DB) (id : String) (status email : Option String) : RiderPatchResp × DB :=
  if !(objectIdIsValid id) then
    (⟨400, false, "Invalid Rider ID"⟩, db)
  else if email.getD "" = "" || status.getD "" = "" then
    (⟨400, false, "Missing email or status"⟩, db)
  else
    let st := jsToLower (status.getD "")
    let riderPred := fun r : Rider => r._id == BsonId.oid id
    let db1 : DB := { db with riders := updateFirst riderPred (fun r => { r with status := some st }) db.riders }
    if !(db.riders.any riderPred) then
      (⟨404, false, "Rider not found"⟩, db)
    else
      let roleUpd : Option String :=
        if st = "active" then some "rider"
        else if st = "pending" || st = "rejected" then some "user"
        else none
      match roleUpd with
      | none =>
        (⟨500, false, "Server error while updating rider and user role."⟩, db1)
      | some newRole =>
        let users' := updateFirst (fun u => u.email == email.getD "")
          (fun u => { u with role := some newRole }) db1.users
        let db2 : DB := { db1 with users := users' }
        let msg :=
          if st = "active" then "Rider activated and role updated to rider."
          else if st = "pending" then "Rider deactivated and moved to pending list."
          else "Rider rejected and role reverted to user."
        (⟨200, true, msg⟩, db2)

/-! ## GET /riders/by-district -/

/-- Response of `GET /riders/by-district`.  The 404 branch's JSON body is
`{ success, message, data }` with no `count` key, hence `count : Option`. -/
structure ByDistrictResp where
  status : Nat
  success : Bool
  message : String
  count : Option Nat
  data : List Rider
deriving DecidableEq, Repr

/-- Contiguous-sublist test on character lists. -/
def listIsInfixOf (needle : List Char) : List Char → Bool
  | [] => needle.isEmpty
  | b :: bs => needle.isPrefixOf (b :: bs) || listIsInfixOf needle bs

/-- Case-insensitive substring test, embedding the unanchored
case-insensitive `$regex` district match. -/
def substrMatchCI (pat s : String) : Bool :=
  listIsInfixOf (jsToLower pat).toList (jsToLower s).toList

def activeVariants : List String := ["active", "Active", "approved", "Approved"]

/-- The by-district filter: district regex-matches the trimmed query
case-insensitively and the status is one of the active variants. -/
def riderMatchesDistrict (district : String) (r : Rider) : Bool :=
  (match r.district with
   | some d => substrMatchCI (jsTrim district) d
   | none => false)
  && (match r.status with
      | some st => activeVariants.contains st
      | none => false)

/-- `app.get("/riders/by-district")`: requires a truthy district; filters
riders; an empty result yields a 404 whose body has `success: false`, a
message, and `data: []` (and no `count` field); a non-empty result yields
200 with `count` and `data`. -/
def getRidersByDistrict (db : DB) (district : Option String) : ByDistrictResp × DB :=
  match district with
  | none => (⟨400, false, "District is required", none, []⟩, db)
  | some d =>
    if d = "" then (⟨400, false, "District is required", none, []⟩, db)
    else
      let riders := db.riders.filter (riderMatchesDistrict d)
      if riders.isEmpty then
        (⟨404, false, "No active riders found for district: " ++ d, none, []⟩, db)
      else
        (⟨200, true, "", some riders.length, riders⟩, db)

/-! ## PATCH /parcels/:id/assign -/

/-- Response of `PATCH /parcels/:id/assign`.  The error branches (400/500)
carry no modification counts, hence `Option`. -/
structure AssignResp where
  status : Nat
  success : Bool
  message : String
  parcelModified : Option Nat
  riderModified : Option Nat
deriving DecidableEq, Repr

/-- The `$set` of the parcel update in the assign route. -/
def assignParcelSet (riderId riderName : String) (riderEmail : Option String) (now : Nat)
    (p : Parcel) : Parcel :=
  { p with assignedRiderId := some riderId, assignedRiderName := some riderName,
           assignedRiderEmail := riderEmail, status := some "In-Transit",
           assignedAt := some now, updatedAt := some now }

/-- The `$set` of the rider update in the assign route. -/
def assignRiderSet (id : String) (now : Nat) (r : Rider) : Rider :=
  { r with workStatus := some "Delivery", lastAssignedParcel := some id,
           lastAssignedAt := some now }

/-- `app.patch("/parcels/:id/assign")`: requires truthy riderId and
riderName; then runs two independent `updateOne`s — parcel by
`new ObjectId(id)` (an invalid id throws inside the try, yielding 500 with
nothing updated), then rider by `new ObjectId(riderId)` (an invalid riderId
throws after the parcel update has persisted).  Match counts are never
checked; the 200 response reports both `modifiedCount`s. -/
def assignRider (db : DB) (id : String) (riderId riderName riderEmail : Option String)
    (now : Nat) : AssignResp × DB :=
  if riderId.getD "" = "" || riderName.getD "" = "" then
    (⟨400, false, "Rider ID and Name required", none, none⟩, db)
  else if !(objectIdIsValid id) then
    (⟨500, false, "Server error while assigning rider", none, none⟩, db)
  else
    let rid := riderId.getD ""
    let parcelPred := fun p : Parcel => p._id == BsonId.oid id
    let parcelSet := assignParcelSet rid (riderName.getD "") riderEmail now
    let parcelModified := modifiedCount parcelPred parcelSet db.parcels
    let db1 : DB := { db with parcels := updateFirst parcelPred parcelSet db.parcels }
    if !(objectIdIsValid rid) then
      (⟨500, false, "Server error while assigning rider", none, none⟩, db1)
    else
      let riderPred := fun r : Rider => r._id == BsonId.oid rid
      let riderSet := assignRiderSet id now
      let riderModified := modifiedCount riderPred riderSet db1.riders
      let db2 : DB := { db1 with riders := updateFirst riderPred riderSet db1.riders }
      (⟨200, true, "Rider assigned and parcel marked In-Transit",
        some parcelModified, some riderModified⟩, db2)

/-! ## PATCH /parcels/:id/status -/

/-- Response of `PATCH /parcels/:id/status`. -/
structure StatusResp where
  status : Nat
  success : Bool
  message : String
deriving DecidableEq, Repr

/-- `parcel.riderDistrict?.toLowerCase() === parcel.receiverDistrict?.toLowerCase()`:
optional chaining maps an absent field to `undefined`, and
`undefined === undefined` is `true`, so two absent districts compare
equal. -/
def sameDistrict (p : Parcel) : Bool :=
  p.riderDistrict.map jsToLower == p.receiverDistrict.map jsToLower

/-- `app.patch("/parcels/:id/status")` (identical in `src/index.js` and
`src/server.js`): validates the id, 404s when the parcel is absent, sets
`status`/`updatedAt`, and when the lowercased new status is "delivered"
runs a second update persisting
`riderEarning = (deliveryCost || 0) * (sameDistrict ? 0.3 : 0.8)`,
computed from the parcel as read before the first update. -/
def setParcelStatus (db : DB) (id : String) (status : String) (now : Nat) :
    StatusResp × DB :=
  if !(objectIdIsValid id) then
    (⟨400, false, "Invalid parcel ID"⟩, db)
  else
    let parcelPred := fun p : Parcel => p._id == BsonId.oid id
    match db.parcels.find? parcelPred with
    | none => (⟨404, false, "Parcel not found"⟩, db)
    | some parcel =>
      let parcels1 := updateFirst parcelPred
        (fun p => { p with status := some status, updatedAt := some now }) db.parcels
      let db1 : DB := { db with parcels := parcels1 }
      if jsToLower status = "delivered" then
        let percentage : ℚ := if sameDistrict parcel then 3/10 else 8/10
        let riderEarning : ℚ := parcel.deliveryCost.getD 0 * percentage
        let parcels2 := updateFirst parcelPred
          (fun p => { p with riderEarning := some riderEarning }) db1.parcels
        let db2 : DB := { db1 with parcels := parcels2 }
        (⟨200, true, "Parcel status updated successfully"⟩, db2)
      else
        (⟨200, true, "Parcel status updated successfully"⟩, db1)

/-! ## GET /tracking/:trackingId -/

/-- Response of `GET /tracking/:trackingId`. -/
structure TrackingResp where
  status : Nat
  success : Bool
  message : Option String
  parcel : Option Parcel
  history : Option (List TrackingEvent)
deriving DecidableEq, Repr

/-- `app.get("/tracking/:trackingId")`: requires a truthy tracking id; 404s
when no parcel carries it; otherwise returns the parcel and its tracking
events sorted by `time` ascending. -/
def getTracking (db : DB) (trackingId : String) : TrackingResp × DB :=
  if trackingId = "" then
    (⟨400, false, some "Tracking ID is required", none, none⟩, db)
  else
    match db.parcels.find? (fun p => p.trackingId == some trackingId) with
    | none => (⟨404, false, some "Parcel not found", none, none⟩, db)
    | some parcel =>
      let history := (db.tracking.filter (fun e => e.parcel_id == parcel._id)).insertionSort
        (fun a b => a.time ≤ b.time)
      (⟨200, true, none, some parcel, some history⟩, db)

/-! ## Theorems -/

/-- C4: `POST /users` with a non-empty email: when no record with that email
exists, exactly one record is created (201) and its role is "user" unless a
role was supplied; when a record exists, no second record is created and
only `lastLogin` is updated (200); uniqueness of emails is preserved. -/
theorem users_upsert_login (db : DB) (uid : Option String) (email name image : String)
    (role : Option String) (provider : String) (now : Nat) (freshId : BsonId)
    (he : email ≠ "") :
    ((∀ u ∈ db.users, u.email ≠ email) →
      (postUsers db uid email name image role provider now freshId).1.status = 201 ∧
      ∃ nu : User,
        (postUsers db uid email name image role provider now freshId).2.users = db.users ++ [nu] ∧
        nu.email = email ∧ nu.role = some (roleOrUser role) ∧
        (role = none → nu.role = some "user")) ∧
    ((∃ u ∈ db.users, u.email = email) →
      (postUsers db uid email name image role provider now freshId).1.status = 200 ∧
      (postUsers db uid email name image role provider now freshId).2.users =
        updateFirst (fun u => u.email == email)
          (fun u => { u with lastLogin := some now }) db.users ∧
      (postUsers db uid email name image role provider now freshId).2.users.length =
        db.users.length) ∧
    ((db.users.map User.email).Nodup →
      ((postUsers db uid email name image role provider now freshId).2.users.map User.email).Nodup) := by
  cases hfind : db.users.find? (fun u => u.email == email) with
  | none =>
    have hall : ∀ u ∈ db.users, u.email ≠ email := by
      intro u hu
      have := List.find?_eq_none.mp hfind u hu
      simpa using this
    refine ⟨?_, ?_, ?_⟩
    · intro _
      constructor
      · simp [postUsers, he, hfind]
      · refine ⟨{ _id := freshId, uid := uid, email := email, name := name, image := image,
                  provider := provider, role := some (roleOrUser role),
                  createdAt := some now, lastLogin := some now }, ?_, rfl, rfl, ?_⟩
        · simp [postUsers, he, hfind]
        · intro hr; subst hr; rfl
    · rintro ⟨u, hu, hue⟩
      exact absurd hue (hall u hu)
    · intro hnd
      have : (postUsers db uid email name image role provider now freshId).2.users.map User.email
          = db.users.map User.email ++ [email] := by
        simp [postUsers, he, hfind]
      rw [this, List.nodup_append]
      refine ⟨hnd, List.nodup_singleton email, ?_⟩
      intro a ha hb
      simp only [List.mem_singleton] at hb
      subst hb
      obtain ⟨u, hu, hue⟩ := List.mem_map.mp ha
      exact hall u hu hue
  | some u0 =>
    have hmem : u0 ∈ db.users := List.mem_of_find?_eq_some hfind
    have hu0 : u0.email = email := by
      have := List.find?_some hfind
      simpa using this
    refine ⟨?_, ?_, ?_⟩
    · intro hall
      exact absurd hu0 (hall u0 hmem)
    · intro _
      refine ⟨?_, ?_, ?_⟩
      · simp [postUsers, he, hfind]
      · simp [postUsers, he, hfind]
      · simp [postUsers, he, hfind, length_updateFirst]
    · intro hnd
      have : (postUsers db uid email name image role provider now freshId).2.users.map User.email
          = db.users.map User.email := by
        simp only [postUsers, he, hfind]
        exact map_updateFirst _ _ _ _ (fun x => rfl)
      rw [this]
      exact hnd

/-- Witness for C4: on an empty users collection, upserting `a@b.c` creates
exactly one record with role "user" and returns 201. -/
theorem users_upsert_login_witness :
    ("a@b.c" : String) ≠ "" ∧
    (postUsers ⟨[], [], [], []⟩ none "a@b.c" "n" "i" none "email" 5
      (BsonId.oid "0123456789ab")).1.status = 201 ∧
    ∃ nu : User,
      (postUsers ⟨[], [], [], []⟩ none "a@b.c" "n" "i" none "email" 5
        (BsonId.oid "0123456789ab")).2.users = (DB.mk [] [] [] []).users ++ [nu] ∧
      nu.email = "a@b.c" ∧ nu.role = some (roleOrUser none) ∧
      ((none : Option String) = none → nu.role = some "user") := by
  have h := users_upsert_login ⟨[], [], [], []⟩ none "a@b.c" "n" "i" none "email" 5
    (BsonId.oid "0123456789ab") (by decide)
  have h1 := h.1 (by intro u hu; simp at hu)
  exact ⟨by decide, h1.1, h1.2⟩

/-- C10: every successful `PATCH /users/:id/role` stores the lowercased role,
which is one of "user", "admin", "rider", whatever letter case the caller
supplied. -/
theorem user_role_stored_lowercase (db : DB) (id : String) (role : Option String)
    (h : (patchUserRole db id role).1.status = 200) :
    ∃ r, role = some r ∧
      (jsToLower r = "user" ∨ jsToLower r = "admin" ∨ jsToLower r = "rider") ∧
      (patchUserRole db id role).2.users =
        updateFirst (fun u => u._id == BsonId.oid id)
          (fun u => { u with role := some (jsToLower r) }) db.users := by
  by_cases hv : objectIdIsValid id
  · cases role with
    | none => simp [patchUserRole, hv] at h
    | some r =>
      by_cases hr : r = ""
      · simp [patchUserRole, hv, hr] at h
      · by_cases ha : jsToLower r ∈ allowedRoles
        · by_cases hany : db.users.any (fun u => u._id == BsonId.oid id)
          · refine ⟨r, rfl, ?_, by simp [patchUserRole, hv, hr, ha, hany]⟩
            simpa [allowedRoles] using ha
          · simp [patchUserRole, hv, hr, ha, hany] at h
        · simp [patchUserRole, hv, hr, ha] at h
  · simp [patchUserRole, hv] at h

/-- Witness for C10: mixed-case "Admin" is accepted and stored as "admin". -/
theorem user_role_stored_lowercase_witness :
    (patchUserRole
        ⟨[{ _id := BsonId.oid "0123456789ab", uid := none, email := "a@b.c", name := "n",
            image := "", provider := "email", role := some "user",
            createdAt := some 0, lastLogin := none }], [], [], []⟩
        "0123456789ab" (some "Admin")).1.status = 200 ∧
    ∃ r, (some "Admin" : Option String) = some r ∧
      (jsToLower r = "user" ∨ jsToLower r = "admin" ∨ jsToLower r = "rider") ∧
      (patchUserRole
        ⟨[{ _id := BsonId.oid "0123456789ab", uid := none, email := "a@b.c", name := "n",
            image := "", provider := "email", role := some "user",
            createdAt := some 0, lastLogin := none }], [], [], []⟩
        "0123456789ab" (some "Admin")).2.users =
        updateFirst (fun u => u._id == BsonId.oid "0123456789ab")
          (fun u => { u with role := some (jsToLower r) })
          (DB.mk
            [{ _id := BsonId.oid "0123456789ab", uid := none, email := "a@b.c", name := "n",
               image := "", provider := "email", role := some "user",
               createdAt := some 0, lastLogin := none }] [] [] []).users := by
  refine ⟨by decide, ?_⟩
  exact user_role_stored_lowercase
    ⟨[{ _id := BsonId.oid "0123456789ab", uid := none, email := "a@b.c", name := "n",
        image := "", provider := "email", role := some "user",
        createdAt := some 0, lastLogin := none }], [], [], []⟩
    "0123456789ab" (some "Admin") (by decide)

/-- C2: `POST /payments/confirm` with both ids present succeeds only when the
payment adapter reports the intent's status as "succeeded"; any other
reported status yields 400 and leaves the database (hence every parcel's
`paymentStatus`) unchanged. -/
theorem payments_confirm_requires_succeeded (retrieve : String → Option PaymentIntent)
    (db : DB) (pid iid : String) (now : Nat) (pi : PaymentIntent)
    (hp : pid ≠ "") (hi : iid ≠ "") (hret : retrieve iid = some pi) :
    (pi.status ≠ "succeeded" →
      (paymentsConfirm retrieve db (some pid) (some iid) now).1.status = 400 ∧
      (paymentsConfirm retrieve db (some pid) (some iid) now).2 = db) ∧
    ((paymentsConfirm retrieve db (some pid) (some iid) now).1.status = 200 →
      pi.status = "succeeded") := by
  by_cases hs : pi.status = "succeeded"
  · exact ⟨fun hne => absurd hs hne, fun _ => hs⟩
  · constructor
    · intro _
      constructor
      · simp [paymentsConfirm, hp, hi, hret, hs]
      · simp [paymentsConfirm, hp, hi, hret, hs]
    · intro h200
      simp [paymentsConfirm, hp, hi, hret, hs] at h200

/-- Witness for C2: an intent reported as "requires_payment_method" is
rejected with 400 and the store is untouched. -/
theorem payments_confirm_requires_succeeded_witness :
    ("p1" : String) ≠ "" ∧ ("pi_1" : String) ≠ "" ∧
    (fun s => if s = "pi_1" then some (PaymentIntent.mk "requires_payment_method")
      else none) "pi_1" = some (PaymentIntent.mk "requires_payment_method") ∧
    ((PaymentIntent.mk "requires_payment_method").status ≠ "succeeded" →
      (paymentsConfirm
        (fun s => if s = "pi_1" then some (PaymentIntent.mk "requires_payment_method") else none)
        ⟨[], [], [], []⟩ (some "p1") (some "pi_1") 7).1.status = 400 ∧
      (paymentsConfirm
        (fun s => if s = "pi_1" then some (PaymentIntent.mk "requires_payment_method") else none)
        ⟨[], [], [], []⟩ (some "p1") (some "pi_1") 7).2 = ⟨[], [], [], []⟩) := by
  refine ⟨by decide, by decide, by decide, ?_⟩
  exact (payments_confirm_requires_succeeded
    (fun s => if s = "pi_1" then some (PaymentIntent.mk "requires_payment_method") else none)
    ⟨[], [], [], []⟩ "p1" "pi_1" 7 (PaymentIntent.mk "requires_payment_method")
    (by decide) (by decide) (by decide)).1

/-- C9: `POST /payments/confirm` with a "succeeded" intent and a parcelId
matching no stored parcel still returns 200 with the success message while
modifying no parcel — the update's match count is never checked. -/
theorem payments_confirm_success_without_parcel (retrieve : String → Option PaymentIntent)
    (db : DB) (pid iid : String) (now : Nat)
    (hp : pid ≠ "") (hi : iid ≠ "")
    (hret : retrieve iid = some (PaymentIntent.mk "succeeded"))
    (hnone : ∀ p ∈ db.parcels, p._id ≠ BsonId.oid pid ∧ p._id ≠ BsonId.str pid) :
    (paymentsConfirm retrieve db (some pid) (some iid) now).1.status = 200 ∧
    (paymentsConfirm retrieve db (some pid) (some iid) now).1.message =
      "Payment recorded and parcel marked Paid" ∧
    (paymentsConfirm retrieve db (some pid) (some iid) now).2.parcels = db.parcels := by
  have hupd : updateFirst
      (fun p : Parcel =>
        objectIdIsValid pid && decide (p._id = BsonId.oid pid) || decide (p._id = BsonId.str pid))
      (fun p => { p with paymentStatus := some "Paid", updatedAt := some now }) db.parcels
      = db.parcels := by
    apply updateFirst_of_forall_not
    intro p hp'
    obtain ⟨h1, h2⟩ := hnone p hp'
    simp [h1, h2]
  refine ⟨?_, ?_, ?_⟩
  · simp [paymentsConfirm, hp, hi, hret]
  · simp [paymentsConfirm, hp, hi, hret]
  · simp [paymentsConfirm, hp, hi, hret]
    exact hupd

/-- Witness for C9: a store holding one unrelated parcel is returned
unchanged with a 200 "Payment recorded and parcel marked Paid". -/
theorem payments_confirm_success_without_parcel_witness :
    ("p9" : String) ≠ "" ∧ ("pi_9" : String) ≠ "" ∧
    (fun s => if s = "pi_9" then some (PaymentIntent.mk "succeeded") else none) "pi_9"
      = some (PaymentIntent.mk "succeeded") ∧
    (∀ p ∈ (DB.mk []
        [{ _id := BsonId.str "other", trackingId := none, createdByEmail := none,
           paymentStatus := some "Unpaid", status := none, assignedRiderId := none,
           assignedRiderName := none, assignedRiderEmail := none, assignedAt := none,
           riderDistrict := none, receiverDistrict := none, deliveryCost := none,
           riderEarning := none, createdAt := none, updatedAt := none }] [] []).parcels,
      p._id ≠ BsonId.oid "p9" ∧ p._id ≠ BsonId.str "p9") ∧
    (paymentsConfirm
      (fun s => if s = "pi_9" then some (PaymentIntent.mk "succeeded") else none)
      (DB.mk []
        [{ _id := BsonId.str "other", trackingId := none, createdByEmail := none,
           paymentStatus := some "Unpaid", status := none, assignedRiderId := none,
           assignedRiderName := none, assignedRiderEmail := none, assignedAt := none,
           riderDistrict := none, receiverDistrict := none, deliveryCost := none,
           riderEarning := none, createdAt := none, updatedAt := none }] [] [])
      (some "p9") (some "pi_9") 3).1.status = 200 ∧
    (paymentsConfirm
      (fun s => if s = "pi_9" then some (PaymentIntent.mk "succeeded") else none)
      (DB.mk []
        [{ _id := BsonId.str "other", trackingId := none, createdByEmail := none,
           paymentStatus := some "Unpaid", status := none, assignedRiderId := none,
           assignedRiderName := none, assignedRiderEmail := none, assignedAt := none,
           riderDistrict := none, receiverDistrict := none, deliveryCost := none,
           riderEarning := none, createdAt := none, updatedAt := none }] [] [])
      (some "p9") (some "pi_9") 3).2.parcels =
      (DB.mk []
        [{ _id := BsonId.str "other", trackingId := none, createdByEmail := none,
           paymentStatus := some "Unpaid", status := none, assignedRiderId := none,
           assignedRiderName := none, assignedRiderEmail := none, assignedAt := none,
           riderDistrict := none, receiverDistrict := none, deliveryCost := none,
           riderEarning := none, createdAt := none, updatedAt := none }] [] []).parcels := by
  have h := payments_confirm_success_without_parcel
    (fun s => if s = "pi_9" then some (PaymentIntent.mk "succeeded") else none)
    (DB.mk []
      [{ _id := BsonId.str "other", trackingId := none, createdByEmail := none,
         paymentStatus := some "Unpaid", status := none, assignedRiderId := none,
         assignedRiderName := none, assignedRiderEmail := none, assignedAt := none,
         riderDistrict := none, receiverDistrict := none, deliveryCost := none,
         riderEarning := none, createdAt := none, updatedAt := none }] [] [])
    "p9" "pi_9" 3 (by decide) (by decide) (by decide) (by decide)
  exact ⟨by decide, by decide, by decide, by decide, h.1, h.2.2⟩

/-- C5: `PATCH /riders/:id` with a valid id, non-empty status and email, on
an existing rider: the rider's status becomes the lowercased status; the
linked user's role becomes "rider" for "active" and "user" for
"pending"/"rejected"; and when no user carries that email the rider update
still succeeds with a 200 response. -/
theorem rider_set_status_updates_role (db : DB) (id e s : String)
    (hid : objectIdIsValid id = true) (he : e ≠ "") (hs : s ≠ "")
    (hst : jsToLower s = "active" ∨ jsToLower s = "pending" ∨ jsToLower s = "rejected")
    (hrider : db.riders.any (fun r => r._id == BsonId.oid id) = true) :
    (ridersPatch db id (some s) (some e)).1.status = 200 ∧
    (ridersPatch db id (some s) (some e)).1.success = true ∧
    (ridersPatch db id (some s) (some e)).2.riders =
      updateFirst (fun r => r._id == BsonId.oid id)
        (fun r => { r with status := some (jsToLower s) }) db.riders ∧
    (ridersPatch db id (some s) (some e)).2.users =
      updateFirst (fun u => u.email == e)
        (fun u => { u with role := some (if jsToLower s = "active" then "rider" else "user") }) db.users ∧
    ((∀ u ∈ db.users, u.email ≠ e) →
      (ridersPatch db id (some s) (some e)).2.users = db.users) := by
  have hmain : (ridersPatch db id (some s) (some e)).2.users =
      updateFirst (fun u => u.email == e)
        (fun u => { u with role := some (if jsToLower s = "active" then "rider" else "user") }) db.users := by
    rcases hst with h | h | h <;> simp [ridersPatch, hid, he, hs, hrider, h]
  refine ⟨?_, ?_, ?_, hmain, ?_⟩
  · rcases hst with h | h | h <;> simp [ridersPatch, hid, he, hs, hrider, h]
  · rcases hst with h | h | h <;> simp [ridersPatch, hid, he, hs, hrider, h]
  · rcases hst with h | h | h <;> simp [ridersPatch, hid, he, hs, hrider, h]
  · intro hall
    rw [hmain]
    apply updateFirst_of_forall_not
    intro u hu
    simpa using hall u hu

/-- Witness for C5: activating a rider linked to an email with no user
record still yields 200 and leaves the users list unchanged. -/
theorem rider_set_status_updates_role_witness :
    objectIdIsValid "0123456789ab" = true ∧ ("ghost@x.y" : String) ≠ "" ∧
    ("Active" : String) ≠ "" ∧ jsToLower "Active" = "active" ∧
    ((DB.mk [] []
        [{ _id := BsonId.oid "0123456789ab", email := some "ghost@x.y",
           district := some "Dhaka", status := some "pending", workStatus := none,
           lastAssignedParcel := none, lastAssignedAt := none }] []).riders.any
      (fun r => r._id == BsonId.oid "0123456789ab") = true) ∧
    (ridersPatch (DB.mk [] []
        [{ _id := BsonId.oid "0123456789ab", email := some "ghost@x.y",
           district := some "Dhaka", status := some "pending", workStatus := none,
           lastAssignedParcel := none, lastAssignedAt := none }] [])
      "0123456789ab" (some "Active") (some "ghost@x.y")).1.status = 200 ∧
    (ridersPatch (DB.mk [] []
        [{ _id := BsonId.oid "0123456789ab", email := some "ghost@x.y",
           district := some "Dhaka", status := some "pending", workStatus := none,
           lastAssignedParcel := none, lastAssignedAt := none }] [])
      "0123456789ab" (some "Active") (some "ghost@x.y")).2.riders =
      updateFirst (fun r => r._id == BsonId.oid "0123456789ab")
        (fun r => { r with status := some (jsToLower "Active") })
        (DB.mk [] []
          [{ _id := BsonId.oid "0123456789ab", email := some "ghost@x.y",
             district := some "Dhaka", status := some "pending", workStatus := none,
             lastAssignedParcel := none, lastAssignedAt := none }] []).riders ∧
    (ridersPatch (DB.mk [] []
        [{ _id := BsonId.oid "0123456789ab", email := some "ghost@x.y",
           district := some "Dhaka", status := some "pending", workStatus := none,
           lastAssignedParcel := none, lastAssignedAt := none }] [])
      "0123456789ab" (some "Active") (some "ghost@x.y")).2.users =
      (DB.mk [] []
        [{ _id := BsonId.oid "0123456789ab", email := some "ghost@x.y",
           district := some "Dhaka", status := some "pending", workStatus := none,
           lastAssignedParcel := none, lastAssignedAt := none }] []).users := by
  have h := rider_set_status_updates_role (DB.mk [] []
      [{ _id := BsonId.oid "0123456789ab", email := some "ghost@x.y",
         district := some "Dhaka", status := some "pending", workStatus := none,
         lastAssignedParcel := none, lastAssignedAt := none }] [])
    "0123456789ab" "ghost@x.y" "Active" (by decide) (by decide) (by decide)
    (Or.inl (by decide)) (by decide)
  exact ⟨by decide, by decide, by decide, by decide, by decide,
    h.1, h.2.2.1, h.2.2.2.2 (by intro u hu; simp at hu)⟩

/-- C6 (counterexample): with one active Dhaka rider stored, querying
district "nowhere" yields the 404 empty response, but its body carries no
`count` field at all (the 404 branch serialises only `success`, `message`
and `data`), so the response does not carry `count = 0` as claimed. -/
theorem riders_by_district_count_field_absent :
    (getRidersByDistrict (DB.mk [] []
        [{ _id := BsonId.oid "0123456789ab", email := some "r@x.y",
           district := some "Dhaka", status := some "active", workStatus := none,
           lastAssignedParcel := none, lastAssignedAt := none }] [])
      (some "nowhere")).1.status = 404 ∧
    (getRidersByDistrict (DB.mk [] []
        [{ _id := BsonId.oid "0123456789ab", email := some "r@x.y",
           district := some "Dhaka", status := some "active", workStatus := none,
           lastAssignedParcel := none, lastAssignedAt := none }] [])
      (some "nowhere")).1.data = [] ∧
    ¬ (getRidersByDistrict (DB.mk [] []
        [{ _id := BsonId.oid "0123456789ab", email := some "r@x.y",
           district := some "Dhaka", status := some "active", workStatus := none,
           lastAssignedParcel := none, lastAssignedAt := none }] [])
      (some "nowhere")).1.count = some 0 := by
  refine ⟨?_, ?_, ?_⟩ <;> decide

/-- C6 (amended): a non-empty district query matching no stored rider with
an active-variant status returns a NotFound-style empty response — 404,
`success = false`, an empty data list, and no `count` field in the body —
with the store unchanged, as distinct from a thrown/hard error. -/
theorem riders_by_district_no_match_empty (db : DB) (d : String) (hd : d ≠ "")
    (hno : ∀ r ∈ db.riders, riderMatchesDistrict d r = false) :
    (getRidersByDistrict db (some d)).1.status = 404 ∧
    (getRidersByDistrict db (some d)).1.success = false ∧
    (getRidersByDistrict db (some d)).1.data = [] ∧
    (getRidersByDistrict db (some d)).1.count = none ∧
    (getRidersByDistrict db (some d)).2 = db := by
  have hfil : db.riders.filter (riderMatchesDistrict d) = [] :=
    List.filter_eq_nil_iff.mpr (by intro a ha; simp [hno a ha])
  refine ⟨?_, ?_, ?_, ?_, ?_⟩ <;> simp [getRidersByDistrict, hd, hfil]

/-- Witness for C6 (amended): the concrete "nowhere" query on a store with
one active Dhaka rider. -/
theorem riders_by_district_no_match_empty_witness :
    ("nowhere" : String) ≠ "" ∧
    (∀ r ∈ (DB.mk [] []
        [{ _id := BsonId.oid "0123456789ab", email := some "r@x.y",
           district := some "Dhaka", status := some "active", workStatus := none,
           lastAssignedParcel := none, lastAssignedAt := none }] []).riders,
      riderMatchesDistrict "nowhere" r = false) ∧
    (getRidersByDistrict (DB.mk [] []
        [{ _id := BsonId.oid "0123456789ab", email := some "r@x.y",
           district := some "Dhaka", status := some "active", workStatus := none,
           lastAssignedParcel := none, lastAssignedAt := none }] [])
      (some "nowhere")).1.status = 404 ∧
    (getRidersByDistrict (DB.mk [] []
        [{ _id := BsonId.oid "0123456789ab", email := some "r@x.y",
           district := some "Dhaka", status := some "active", workStatus := none,
           lastAssignedParcel := none, lastAssignedAt := none }] [])
      (some "nowhere")).1.count = none := by
  have h := riders_by_district_no_match_empty (DB.mk [] []
      [{ _id := BsonId.oid "0123456789ab", email := some "r@x.y",
         district := some "Dhaka", status := some "active", workStatus := none,
         lastAssignedParcel := none, lastAssignedAt := none }] [])
    "nowhere" (by decide) (by decide)
  exact ⟨by decide, by decide, h.1, h.2.2.2.1⟩

/-- C7: `GET /tracking/:trackingId` with a non-empty id: 404 when no parcel
carries the tracking id; otherwise 200 with the parcel and its event
history sorted by time ascending, where a parcel with zero events yields an
empty history rather than an error. -/
theorem tracking_lookup (db : DB) (tid : String) (htid : tid ≠ "") :
    ((∀ p ∈ db.parcels, p.trackingId ≠ some tid) →
      (getTracking db tid).1.status = 404 ∧
      (getTracking db tid).1.message = some "Parcel not found") ∧
    (∀ parcel, db.parcels.find? (fun p => p.trackingId == some tid) = some parcel →
      (getTracking db tid).1.status = 200 ∧
      (getTracking db tid).1.parcel = some parcel ∧
      ∃ h, (getTracking db tid).1.history = some h ∧
        h.Sorted (fun a b => a.time ≤ b.time) ∧
        h.Perm (db.tracking.filter (fun e => e.parcel_id == parcel._id)) ∧
        ((∀ e ∈ db.tracking, e.parcel_id ≠ parcel._id) → h = [])) := by
  constructor
  · intro hnone
    have hfind : db.parcels.find? (fun p => p.trackingId == some tid) = none := by
      rw [List.find?_eq_none]
      intro p hp
      simp [hnone p hp]
    constructor <;> simp [getTracking, htid, hfind]
  · intro parcel hfind
    refine ⟨by simp [getTracking, htid, hfind], by simp [getTracking, htid, hfind],
      (db.tracking.filter (fun e => e.parcel_id == parcel._id)).insertionSort
        (fun a b => a.time ≤ b.time), by simp [getTracking, htid, hfind], ?_, ?_, ?_⟩
    · haveI : IsTotal TrackingEvent (fun a b => a.time ≤ b.time) :=
        ⟨fun a b => Nat.le_total a.time b.time⟩
      haveI : IsTrans TrackingEvent (fun a b => a.time ≤ b.time) :=
        ⟨fun _ _ _ hab hbc => Nat.le_trans hab hbc⟩
      exact List.sorted_insertionSort _ _
    · exact List.perm_insertionSort _ _
    · intro hnoev
      have hfil : db.tracking.filter (fun e => e.parcel_id == parcel._id) = [] :=
        List.filter_eq_nil_iff.mpr (by intro e he; simp [hnoev e he])
      rw [hfil]
      rfl

/-- Witness for C7: a parcel carrying tracking id "TRK1" with zero stored
events yields 200 and an empty, trivially sorted history. -/
theorem tracking_lookup_witness :
    ("TRK1" : String) ≠ "" ∧
    ((DB.mk []
        [{ _id := BsonId.oid "0123456789ab", trackingId := some "TRK1",
           createdByEmail := none, paymentStatus := some "Unpaid", status := none,
           assignedRiderId := none, assignedRiderName := none, assignedRiderEmail := none,
           assignedAt := none, riderDistrict := none, receiverDistrict := none,
           deliveryCost := none, riderEarning := none, createdAt := none,
           updatedAt := none }] [] []).parcels.find?
      (fun p => p.trackingId == some "TRK1") = some
        { _id := BsonId.oid "0123456789ab", trackingId := some "TRK1",
          createdByEmail := none, paymentStatus := some "Unpaid", status := none,
          assignedRiderId := none, assignedRiderName := none, assignedRiderEmail := none,
          assignedAt := none, riderDistrict := none, receiverDistrict := none,
          deliveryCost := none, riderEarning := none, createdAt := none,
          updatedAt := none }) ∧
    (getTracking (DB.mk []
        [{ _id := BsonId.oid "0123456789ab", trackingId := some "TRK1",
           createdByEmail := none, paymentStatus := some "Unpaid", status := none,
           assignedRiderId := none, assignedRiderName := none, assignedRiderEmail := none,
           assignedAt := none, riderDistrict := none, receiverDistrict := none,
           deliveryCost := none, riderEarning := none, createdAt := none,
           updatedAt := none }] [] []) "TRK1").1.status = 200 ∧
    (getTracking (DB.mk []
        [{ _id := BsonId.oid "0123456789ab", trackingId := some "TRK1",
           createdByEmail := none, paymentStatus := some "Unpaid", status := none,
           assignedRiderId := none, assignedRiderName := none, assignedRiderEmail := none,
           assignedAt := none, riderDistrict := none, receiverDistrict := none,
           deliveryCost := none, riderEarning := none, createdAt := none,
           updatedAt := none }] [] []) "TRK1").1.history = some [] := by
  have h := tracking_lookup (DB.mk []
      [{ _id := BsonId.oid "0123456789ab", trackingId := some "TRK1",
         createdByEmail := none, paymentStatus := some "Unpaid", status := none,
         assignedRiderId := none, assignedRiderName := none, assignedRiderEmail := none,
         assignedAt := none, riderDistrict := none, receiverDistrict := none,
         deliveryCost := none, riderEarning := none, createdAt := none,
         updatedAt := none }] [] []) "TRK1" (by decide)
  have h2 := h.2
    { _id := BsonId.oid "0123456789ab", trackingId := some "TRK1",
      createdByEmail := none, paymentStatus := some "Unpaid", status := none,
      assignedRiderId := none, assignedRiderName := none, assignedRiderEmail := none,
      assignedAt := none, riderDistrict := none, receiverDistrict := none,
      deliveryCost := none, riderEarning := none, createdAt := none,
      updatedAt := none } (by decide)
  obtain ⟨hist, hh, _, _, hempty⟩ := h2.2.2
  have : hist = [] := hempty (by intro e he; simp at he)
  exact ⟨by decide, by decide, h2.1, by rw [hh, this]⟩

/-- C3: `PATCH /parcels/:id/assign` with riderId and riderName present runs
two independent, non-atomic updates: when no parcel matches the id the
rider update is still applied and the 200 response reports both
modification counts (`parcelModified = 0` in that case); when the parcel
exists it receives the assignment fields with status forced "In-Transit",
and an existing rider receives `workStatus = "Delivery"`. -/
theorem assign_rider_nonatomic (db : DB) (id rid rn : String) (re : Option String)
    (now : Nat) (hrid : rid ≠ "") (hrn : rn ≠ "")
    (hidv : objectIdIsValid id = true) (hridv : objectIdIsValid rid = true) :
    (assignRider db id (some rid) (some rn) re now).1.status = 200 ∧
    (assignRider db id (some rid) (some rn) re now).1.parcelModified.isSome ∧
    (assignRider db id (some rid) (some rn) re now).1.riderModified.isSome ∧
    (assignRider db id (some rid) (some rn) re now).2.riders =
      updateFirst (fun r => r._id == BsonId.oid rid) (assignRiderSet id now) db.riders ∧
    ((∀ p ∈ db.parcels, p._id ≠ BsonId.oid id) →
      (assignRider db id (some rid) (some rn) re now).2.parcels = db.parcels ∧
      (assignRider db id (some rid) (some rn) re now).1.parcelModified = some 0) ∧
    (∀ parcel, db.parcels.find? (fun p => p._id == BsonId.oid id) = some parcel →
      assignParcelSet rid rn re now parcel ∈
        (assignRider db id (some rid) (some rn) re now).2.parcels ∧
      (assignParcelSet rid rn re now parcel).status = some "In-Transit") ∧
    (∀ rider, db.riders.find? (fun r => r._id == BsonId.oid rid) = some rider →
      assignRiderSet id now rider ∈
        (assignRider db id (some rid) (some rn) re now).2.riders ∧
      (assignRiderSet id now rider).workStatus = some "Delivery") := by
  refine ⟨?_, ?_, ?_, ?_, ?_, ?_, ?_⟩
  · simp [assignRider, hrid, hrn, hidv, hridv]
  · simp [assignRider, hrid, hrn, hidv, hridv]
  · simp [assignRider, hrid, hrn, hidv, hridv]
  · simp [assignRider, hrid, hrn, hidv, hridv]
  · intro hnone
    have hfind : db.parcels.find? (fun p => p._id == BsonId.oid id) = none := by
      rw [List.find?_eq_none]
      intro p hp
      simp [hnone p hp]
    have hall : ∀ p ∈ db.parcels, (fun p : Parcel => p._id == BsonId.oid id) p = false := by
      intro p hp
      simp [hnone p hp]
    have hparc : updateFirst (fun p : Parcel => p._id == BsonId.oid id)
        (assignParcelSet rid rn re now) db.parcels = db.parcels :=
      updateFirst_of_forall_not _ _ _ hall
    constructor
    · simp [assignRider, hrid, hrn, hidv, hridv, hparc]
    · simp [assignRider, hrid, hrn, hidv, hridv, modifiedCount, hfind]
  · intro parcel hfind
    constructor
    · have hmem := mem_updateFirst_of_find? (fun p : Parcel => p._id == BsonId.oid id)
        (assignParcelSet rid rn re now) db.parcels parcel hfind
      simpa [assignRider, hrid, hrn, hidv, hridv] using hmem
    · rfl
  · intro rider hfind
    constructor
    · have hmem := mem_updateFirst_of_find? (fun r : Rider => r._id == BsonId.oid rid)
        (assignRiderSet id now) db.riders rider hfind
      simpa [assignRider, hrid, hrn, hidv, hridv] using hmem
    · rfl

/-- Witness for C3: assigning a rider to a missing parcel id on a store
holding only that rider: the response is 200 with `parcelModified = 0`, the
parcels are untouched, and the rider still gets `workStatus = "Delivery"`. -/
theorem assign_rider_nonatomic_witness :
    ("00000000000000000000aaaa" : String) ≠ "" ∧ ("Rider R" : String) ≠ "" ∧
    objectIdIsValid "00000000000000000000ffff" = true ∧
    objectIdIsValid "00000000000000000000aaaa" = true ∧
    (∀ p ∈ (DB.mk [] []
        [{ _id := BsonId.oid "00000000000000000000aaaa", email := some "r@x.y",
           district := none, status := some "active", workStatus := none,
           lastAssignedParcel := none, lastAssignedAt := none }] []).parcels,
      p._id ≠ BsonId.oid "00000000000000000000ffff") ∧
    (assignRider (DB.mk [] []
        [{ _id := BsonId.oid "00000000000000000000aaaa", email := some "r@x.y",
           district := none, status := some "active", workStatus := none,
           lastAssignedParcel := none, lastAssignedAt := none }] [])
      "00000000000000000000ffff" (some "00000000000000000000aaaa") (some "Rider R")
      none 9).1.status = 200 ∧
    (assignRider (DB.mk [] []
        [{ _id := BsonId.oid "00000000000000000000aaaa", email := some "r@x.y",
           district := none, status := some "active", workStatus := none,
           lastAssignedParcel := none, lastAssignedAt := none }] [])
      "00000000000000000000ffff" (some "00000000000000000000aaaa") (some "Rider R")
      none 9).2.parcels = [] ∧
    (assignRider (DB.mk [] []
        [{ _id := BsonId.oid "00000000000000000000aaaa", email := some "r@x.y",
           district := none, status := some "active", workStatus := none,
           lastAssignedParcel := none, lastAssignedAt := none }] [])
      "00000000000000000000ffff" (some "00000000000000000000aaaa") (some "Rider R")
      none 9).1.parcelModified = some 0 ∧
    assignRiderSet "00000000000000000000ffff" 9
        { _id := BsonId.oid "00000000000000000000aaaa", email := some "r@x.y",
          district := none, status := some "active", workStatus := none,
          lastAssignedParcel := none, lastAssignedAt := none } ∈
      (assignRider (DB.mk [] []
          [{ _id := BsonId.oid "00000000000000000000aaaa", email := some "r@x.y",
             district := none, status := some "active", workStatus := none,
             lastAssignedParcel := none, lastAssignedAt := none }] [])
        "00000000000000000000ffff" (some "00000000000000000000aaaa") (some "Rider R")
        none 9).2.riders ∧
    (assignRiderSet "00000000000000000000ffff" 9
        { _id := BsonId.oid "00000000000000000000aaaa", email := some "r@x.y",
          district := none, status := some "active", workStatus := none,
          lastAssignedParcel := none, lastAssignedAt := none }).workStatus =
      some "Delivery" := by
  have h := assign_rider_nonatomic (DB.mk [] []
      [{ _id := BsonId.oid "00000000000000000000aaaa", email := some "r@x.y",
         district := none, status := some "active", workStatus := none,
         lastAssignedParcel := none, lastAssignedAt := none }] [])
    "00000000000000000000ffff" "00000000000000000000aaaa" "Rider R" none 9
    (by decide) (by decide) (by decide) (by decide)
  have hnp := h.2.2.2.2.1 (by intro p hp; simp at hp)
  have hr := h.2.2.2.2.2.2
    { _id := BsonId.oid "00000000000000000000aaaa", email := some "r@x.y",
      district := none, status := some "active", workStatus := none,
      lastAssignedParcel := none, lastAssignedAt := none } (by decide)
  exact ⟨by decide, by decide, by decide, by decide, by intro p hp; simp at hp,
    h.1, hnp.1, hnp.2, hr.1, hr.2⟩

/-- Shared shape of the delivered branch of `PATCH /parcels/:id/status`:
the found parcel, with the new status and timestamp and with
`riderEarning = (deliveryCost || 0) * (sameDistrict ? 0.3 : 0.8)`, is in the
resulting parcels collection, and the response is a 200 success. -/
theorem setParcelStatus_delivered (db : DB) (id status : String) (now : Nat)
    (parcel : Parcel) (hidv : objectIdIsValid id = true)
    (hfind : db.parcels.find? (fun p => p._id == BsonId.oid id) = some parcel)
    (hdel : jsToLower status = "delivered") :
    (setParcelStatus db id status now).1.status = 200 ∧
    (setParcelStatus db id status now).1.success = true ∧
    { parcel with
        status := some status, updatedAt := some now,
        riderEarning := some (parcel.deliveryCost.getD 0 * (if sameDistrict parcel then 3/10 else 8/10)) } ∈
      (setParcelStatus db id status now).2.parcels := by
  refine ⟨by simp [setParcelStatus, hidv, hfind, hdel], by simp [setParcelStatus, hidv, hfind, hdel], ?_⟩
  have hcomp := updateFirst_updateFirst (fun p : Parcel => p._id == BsonId.oid id)
    (fun p => { p with status := some status, updatedAt := some now })
    (fun p =>
      { p with
        riderEarning := some (parcel.deliveryCost.getD 0 * (if sameDistrict parcel then 3/10 else 8/10)) })
    db.parcels (fun x => rfl)
  have hmem := mem_updateFirst_of_find? (fun p : Parcel => p._id == BsonId.oid id)
    (fun x =>
      { ({ x with status := some status, updatedAt := some now } : Parcel) with
        riderEarning := some (parcel.deliveryCost.getD 0 * (if sameDistrict parcel then 3/10 else 8/10)) })
    db.parcels parcel hfind
  rw [← hcomp] at hmem
  simpa [setParcelStatus, hidv, hfind, hdel] using hmem

/-- C1: for a stored parcel, the status update with a status that lowercases
to "delivered" persists `riderEarning = (deliveryCost || 0) × (0.3 when the
two districts compare equal case-insensitively, 0.8 otherwise)`; the
comparison used is exactly case-insensitive equality whenever both district
fields are present. -/
theorem parcel_delivered_rider_earning (db : DB) (id status : String) (now : Nat)
    (parcel : Parcel) (hidv : objectIdIsValid id = true)
    (hfind : db.parcels.find? (fun p => p._id == BsonId.oid id) = some parcel)
    (hdel : jsToLower status = "delivered") :
    (setParcelStatus db id status now).1.status = 200 ∧
    { parcel with
        status := some status, updatedAt := some now,
        riderEarning := some (parcel.deliveryCost.getD 0 * (if sameDistrict parcel then 3/10 else 8/10)) } ∈
      (setParcelStatus db id status now).2.parcels ∧
    (∀ rd rcd, parcel.riderDistrict = some rd → parcel.receiverDistrict = some rcd →
      (sameDistrict parcel = true ↔ jsToLower rd = jsToLower rcd)) := by
  obtain ⟨h200, _, hmem⟩ := setParcelStatus_delivered db id status now parcel hidv hfind hdel
  refine ⟨h200, hmem, ?_⟩
  intro rd rcd h1 h2
  simp [sameDistrict, h1, h2]

/-- A stored parcel with `deliveryCost = 100` and equal districts "A"/"A",
used to witness C1. -/
def parcelDistrictsAA : Parcel :=
  { _id := BsonId.oid "00000000000000000000cccc", trackingId := none,
    createdByEmail := none, paymentStatus := some "Paid", status := some "In-Transit",
    assignedRiderId := none, assignedRiderName := none, assignedRiderEmail := none,
    assignedAt := none, riderDistrict := some "A", receiverDistrict := some "A",
    deliveryCost := some 100, riderEarning := none, createdAt := none, updatedAt := none }

/-- The same parcel with `receiverDistrict = "B"`, used to witness C1. -/
def parcelDistrictsAB : Parcel :=
  { parcelDistrictsAA with receiverDistrict := some "B" }

/-- Witness for C1: `deliveryCost = 100` with districts "A"/"A" persists
`riderEarning = 30`; with districts "A"/"B" it persists `riderEarning = 80`. -/
theorem parcel_delivered_rider_earning_witness :
    objectIdIsValid "00000000000000000000cccc" = true ∧
    jsToLower "Delivered" = "delivered" ∧
    { parcelDistrictsAA with
        status := some "Delivered", updatedAt := some 11,
        riderEarning := some 30 } ∈
      (setParcelStatus (DB.mk [] [parcelDistrictsAA] [] [])
        "00000000000000000000cccc" "Delivered" 11).2.parcels ∧
    { parcelDistrictsAB with
        status := some "Delivered", updatedAt := some 11,
        riderEarning := some 80 } ∈
      (setParcelStatus (DB.mk [] [parcelDistrictsAB] [] [])
        "00000000000000000000cccc" "Delivered" 11).2.parcels := by
  have hA := parcel_delivered_rider_earning (DB.mk [] [parcelDistrictsAA] [] [])
    "00000000000000000000cccc" "Delivered" 11 parcelDistrictsAA
    (by decide) (by decide) (by decide)
  have hB := parcel_delivered_rider_earning (DB.mk [] [parcelDistrictsAB] [] [])
    "00000000000000000000cccc" "Delivered" 11 parcelDistrictsAB
    (by decide) (by decide) (by decide)
  have hsdA : sameDistrict parcelDistrictsAA = true := by decide
  have hsdB : sameDistrict parcelDistrictsAB = false := by decide
  have heA : parcelDistrictsAA.deliveryCost.getD 0 *
      (if sameDistrict parcelDistrictsAA then (3 : ℚ)/10 else 8/10) = 30 := by
    rw [hsdA]
    norm_num [parcelDistrictsAA]
  have heB : parcelDistrictsAB.deliveryCost.getD 0 *
      (if sameDistrict parcelDistrictsAB then (3 : ℚ)/10 else 8/10) = 80 := by
    rw [hsdB]
    norm_num [parcelDistrictsAB, parcelDistrictsAA]
  refine ⟨by decide, by decide, ?_, ?_⟩
  · have := hA.2.1
    rw [heA] at this
    exact this
  · have := hB.2.1
    rw [heB] at this
    exact this

/-- C8: when the delivered branch runs on a parcel with neither district
field, the two absent districts compare equal (`undefined === undefined`),
so the same-district 0.3 branch is taken, and an absent `deliveryCost`
yields `riderEarning = 0`. -/
theorem parcel_delivered_absent_districts (db : DB) (id status : String) (now : Nat)
    (parcel : Parcel) (hidv : objectIdIsValid id = true)
    (hfind : db.parcels.find? (fun p => p._id == BsonId.oid id) = some parcel)
    (hdel : jsToLower status = "delivered")
    (hrd : parcel.riderDistrict = none) (hcd : parcel.receiverDistrict = none) :
    sameDistrict parcel = true ∧
    { parcel with
        status := some status, updatedAt := some now,
        riderEarning := some (parcel.deliveryCost.getD 0 * (3/10)) } ∈
      (setParcelStatus db id status now).2.parcels ∧
    (parcel.deliveryCost = none →
      { parcel with
          status := some status, updatedAt := some now,
          riderEarning := some 0 } ∈ (setParcelStatus db id status now).2.parcels) := by
  obtain ⟨_, _, hmem⟩ := setParcelStatus_delivered db id status now parcel hidv hfind hdel
  have hsd : sameDistrict parcel = true := by simp [sameDistrict, hrd, hcd]
  rw [hsd] at hmem
  simp only [if_true] at hmem
  refine ⟨hsd, hmem, ?_⟩
  intro hdc
  have he : parcel.deliveryCost.getD 0 * ((3 : ℚ)/10) = 0 := by
    rw [hdc]
    simp
  rw [he] at hmem
  exact hmem

/-- Witness for C8: a parcel with no districts and no deliveryCost, marked
"Delivered", gets `riderEarning = 0` through the same-district branch. -/
theorem parcel_delivered_absent_districts_witness :
    objectIdIsValid "00000000000000000000dddd" = true ∧
    jsToLower "delivered" = "delivered" ∧
    sameDistrict
      { _id := BsonId.oid "00000000000000000000dddd", trackingId := none,
        createdByEmail := none, paymentStatus := none, status := none,
        assignedRiderId := none, assignedRiderName := none, assignedRiderEmail := none,
        assignedAt := none, riderDistrict := none, receiverDistrict := none,
        deliveryCost := none, riderEarning := none, createdAt := none,
        updatedAt := none } = true ∧
    { _id := BsonId.oid "00000000000000000000dddd", trackingId := none,
      createdByEmail := none, paymentStatus := none, status := some "delivered",
      assignedRiderId := none, assignedRiderName := none, assignedRiderEmail := none,
      assignedAt := none, riderDistrict := none, receiverDistrict := none,
      deliveryCost := none, riderEarning := some 0, createdAt := none,
      updatedAt := some 13 } ∈
      (setParcelStatus (DB.mk []
        [{ _id := BsonId.oid "00000000000000000000dddd", trackingId := none,
           createdByEmail := none, paymentStatus := none, status := none,
           assignedRiderId := none, assignedRiderName := none, assignedRiderEmail := none,
           assignedAt := none, riderDistrict := none, receiverDistrict := none,
           deliveryCost := none, riderEarning := none, createdAt := none,
           updatedAt := none }] [] []) "00000000000000000000dddd" "delivered" 13).2.parcels := by
  have h := parcel_delivered_absent_districts (DB.mk []
      [{ _id := BsonId.oid "00000000000000000000dddd", trackingId := none,
         createdByEmail := none, paymentStatus := none, status := none,
         assignedRiderId := none, assignedRiderName := none, assignedRiderEmail := none,
         assignedAt := none, riderDistrict := none, receiverDistrict := none,
         deliveryCost := none, riderEarning := none, createdAt := none,
         updatedAt := none }] [] []) "00000000000000000000dddd" "delivered" 13
    { _id := BsonId.oid "00000000000000000000dddd", trackingId := none,
      createdByEmail := none, paymentStatus := none, status := none,
      assignedRiderId := none, assignedRiderName := none, assignedRiderEmail := none,
      assignedAt := none, riderDistrict := none, receiverDistrict := none,
      deliveryCost := none, riderEarning := none, createdAt := none,
      updatedAt := none } (by decide) (by decide) (by decide) rfl rfl
  exact ⟨by decide, by decide, h.1, h.2.2 rfl⟩

end ParcelX
